import Mathlib

/-!
Shallow embedding of the hospital patient management Flask application
(`src/app.py`) over an explicit store state, together with theorems
settling the behavioural claims about its handlers.

Conventions of the embedding:
* SQLite rows become Lean structures; the two tables become lists inside
  a `Store` record, and the `AUTOINCREMENT` visit id becomes an explicit
  `nextVisitId` counter (SQLite starts at 1).
* Form data (`request.form.get(k)` / `request.form.get(k, '')`) becomes
  `Option String` fields with `Option.getD` for the default.
* The Python string operations the application uses (`strip`, `upper`,
  `lower`, `split(sep, 1)`, `replace`, `startswith`, `isdigit`, `int`)
  are defined structurally over `String.data` below, on the ASCII data
  the application handles.
* SQLite's BINARY text collation coincides with Lean's lexicographic
  `String` order on the ASCII data the application stores.
* Unhandled Python exceptions at the handler boundary become explicit
  `crash`-style outcomes; caught exceptions become the outcome carrying
  the flashed error message.
-/

namespace Hospital

/-! ### Python string primitives -/

/-- Python `s.strip()`: drop leading and trailing whitespace. -/
def pyStrip (s : String) : String :=
  ⟨((s.data.dropWhile Char.isWhitespace).reverse.dropWhile
      Char.isWhitespace).reverse⟩

/-- Python `s.upper()` on ASCII data. -/
def pyUpper (s : String) : String := ⟨s.data.map Char.toUpper⟩

/-- Python `s.lower()` on ASCII data. -/
def pyLower (s : String) : String := ⟨s.data.map Char.toLower⟩

/-- Python `s.isdigit()` on ASCII data: non-empty and all digit characters. -/
def pyIsdigit (s : String) : Bool :=
  !s.data.isEmpty && s.data.all Char.isDigit

/-- Python `int(s)` on an all-digit string. -/
def pyToNat (s : String) : Nat :=
  s.data.foldl (fun n c => 10 * n + (c.toNat - 48)) 0

/-- Python `x or None` applied to an optional form string: an absent field or
an empty string both collapse to `None`. -/
def pyOrNone (o : Option String) : Option String :=
  match o with
  | none => none
  | some s => if s = "" then none else some s

/-- Split a character list at the first occurrence of `c`: `none` when `c`
does not occur. -/
def splitFirstAux (c : Char) : List Char → Option (List Char × List Char)
  | [] => none
  | x :: xs =>
    if x = c then some ([], xs)
    else (splitFirstAux c xs).map (fun p => (x :: p.1, p.2))

/-- Python `s.split(sep, 1)` for a one-character separator, returning the
two halves, or `none` when the separator does not occur (the application
only splits after checking `sep in s`). -/
def pySplitOnce (c : Char) (s : String) : Option (String × String) :=
  (splitFirstAux c s.data).map (fun p => (⟨p.1⟩, ⟨p.2⟩))

/-- Python `s.replace(" ", "_")` (one-character pattern and replacement). -/
def underscoreSpaces (s : String) : String :=
  ⟨s.data.map (fun ch => if ch = ' ' then '_' else ch)⟩

/-! ### Data model (`init_db`, src/app.py lines 25-72) -/

/-- A row of the `patients` table (`init_db`, src/app.py lines 27-41).
`age` and `gender` are the only columns a reachable insert can set to NULL
(`add_patient` inserts `request.form.get('age') or None` and the unstripped
`request.form.get('gender')`), hence their `Option` type. -/
structure Patient where
  vhid : String
  date : String
  name : String
  age : Option String
  gender : Option String
  address : String
  ref_by : String
  mobile : String
  past_history : String
  drug_history : String
  surgical_history : String
deriving Repr, DecidableEq

/-- A row of the `visits` table (`init_db`, src/app.py lines 42-63), with the
fields in the order `add_visit` inserts them. -/
structure Visit where
  id : Nat
  vhid : String
  date : String
  vitals : String
  complaints : String
  oe : String
  imp : String
  invgs : String
  treatment : String
  ref_by : String
  examination : String
  prov_diagnosis : String
  impression : String
  next_review : String
  past_history : String
  drug_history : String
  surgical_history : String
deriving Repr, DecidableEq

/-- The persistent database state: the two tables plus the AUTOINCREMENT
counter for visit ids. -/
structure Store where
  patients : List Patient
  visits : List Visit
  nextVisitId : Nat
deriving Repr, DecidableEq

/-- The empty database produced by `init_db` on a fresh file. -/
def Store.empty : Store := { patients := [], visits := [], nextVisitId := 1 }

/-- `SELECT * FROM patients WHERE vhid = ?` (exact-key lookup). -/
def getPatient (s : Store) (vhid : String) : Option Patient :=
  s.patients.find? (fun p => p.vhid == vhid)

/-- `SELECT * FROM visits WHERE id = ?`. -/
def getVisitById (s : Store) (visitId : Nat) : Option Visit :=
  s.visits.find? (fun v => v.id == visitId)

/-- The ordering of `ORDER BY date DESC, id DESC`: `v` comes no later than `w`
when `v`'s date is larger, or the dates are equal and `v`'s id is at least
`w`'s. -/
def visitBefore (v w : Visit) : Prop :=
  w.date < v.date ∨ (w.date = v.date ∧ w.id ≤ v.id)

instance : DecidableRel visitBefore := fun v w =>
  decidable_of_iff (w.date.data < v.date.data ∨ (w.date = v.date ∧ w.id ≤ v.id))
    (by rw [visitBefore, String.lt_iff_toList_lt]; rfl)

instance : IsTotal Visit visitBefore where
  total v w := by
    rcases lt_trichotomy v.date w.date with h | h | h
    · exact Or.inr (Or.inl h)
    · rcases Nat.le_total w.id v.id with h2 | h2
      · exact Or.inl (Or.inr ⟨h.symm, h2⟩)
      · exact Or.inr (Or.inr ⟨h, h2⟩)
    · exact Or.inl (Or.inl h)

instance : IsTrans Visit visitBefore where
  trans u v w huv hvw := by
    rcases huv with h1 | ⟨h1, h1'⟩ <;> rcases hvw with h2 | ⟨h2, h2'⟩
    · exact Or.inl (lt_trans h2 h1)
    · exact Or.inl (h2.trans_lt h1)
    · exact Or.inl (h2.trans_eq h1)
    · exact Or.inr ⟨h2.trans h1, le_trans h2' h1'⟩

/-- `SELECT * FROM visits WHERE vhid = ? ORDER BY date DESC, id DESC`
(src/app.py line 150). -/
def listVisitsForPatient (s : Store) (vhid : String) : List Visit :=
  List.insertionSort visitBefore (s.visits.filter (fun v => v.vhid == vhid))

/-! ### The `/add` handler (`add_patient`, src/app.py lines 100-135) -/

/-- The POST form of `/add`; the referring-party field is named `referred`
in this form. Absent fields are `none`. -/
structure AddForm where
  vhid : Option String := none
  date : Option String := none
  name : Option String := none
  age : Option String := none
  gender : Option String := none
  address : Option String := none
  referred : Option String := none
  mobile : Option String := none
  past_history : Option String := none
  drug_history : Option String := none
  surgical_history : Option String := none
deriving Repr, DecidableEq

/-- The `vhid` as `add_patient` normalizes it:
`request.form.get('vhid', '').strip().upper()`. -/
def AddForm.normVhid (f : AddForm) : String :=
  pyUpper (pyStrip (f.vhid.getD ""))

/-- The patient row `add_patient` inserts: every field is stripped except
`age`, which goes through `or None` unstripped, and `gender`, which is
stored exactly as submitted (`request.form.get('gender')`, no strip). -/
def addRecord (f : AddForm) : Patient :=
  { vhid := f.normVhid
    date := pyStrip (f.date.getD "")
    name := pyStrip (f.name.getD "")
    age := pyOrNone f.age
    gender := f.gender
    address := pyStrip (f.address.getD "")
    ref_by := pyStrip (f.referred.getD "")
    mobile := pyStrip (f.mobile.getD "")
    past_history := pyStrip (f.past_history.getD "")
    drug_history := pyStrip (f.drug_history.getD "")
    surgical_history := pyStrip (f.surgical_history.getD "") }

inductive AddOutcome where
  | requiredMissing
  | duplicate
  | added (vhid : String)
deriving Repr, DecidableEq

/-- The message `add_patient` flashes for each outcome. -/
def addFlash : AddOutcome → String
  | .requiredMissing => "VHID and Name are required"
  | .duplicate => "VHID already exists!"
  | .added _ => "Patient added successfully!"

/-- POST `/add`: normalize the form, require `vhid` and `name`, then
`INSERT INTO patients`; a duplicate primary key raises
`sqlite3.IntegrityError`, flashed as `"VHID already exists!"` with the
store untouched. -/
def addPatient (s : Store) (f : AddForm) : Store × AddOutcome :=
  let vhid := f.normVhid
  let name := pyStrip (f.name.getD "")
  if vhid = "" ∨ name = "" then (s, .requiredMissing)
  else if s.patients.any (fun p => p.vhid == vhid) then (s, .duplicate)
  else ({ s with patients := s.patients ++ [addRecord f] }, .added vhid)

/-! ### The `/retrieve` handler (`retrieve_patient`, src/app.py
lines 137-160) -/

inductive RetrieveOutcome where
  /-- The unhandled `AttributeError` from `None.strip()` when a POST request
  carries no `vhid` field at all (the `or ''` fallback only applies to the
  GET branch of the conditional expression on line 141). -/
  | crash
  /-- The rendered page: the patient row (if any), the visit rows, and the
  flashed `(text, category)` message (if any). -/
  | page (patient : Option Patient) (visits : List Visit)
      (message : Option (String × String))
deriving Repr, DecidableEq

/-- `/retrieve`: `isPost` selects between `request.form.get("vhid")` (no
default — `none` crashes on `.strip()`) and `request.args.get("vhid") or ''`.
A blank key skips the lookup entirely; otherwise both tables are queried and
a not-found or success message is flashed. -/
def retrievePatient (s : Store) (isPost : Bool) (param : Option String) :
    RetrieveOutcome :=
  match (if isPost then param else some (param.getD "")) with
  | none => .crash
  | some raw =>
    let vhid := pyUpper (pyStrip raw)
    if vhid = "" then .page none [] none
    else
      match getPatient s vhid with
      | none =>
          .page none (listVisitsForPatient s vhid)
            (some ("No record found for VHID: " ++ vhid, "danger"))
      | some p =>
          .page (some p) (listVisitsForPatient s vhid)
            (some ("Patient record retrieved for VHID: " ++ vhid, "success"))

/-! ### The `/edit_patient/<vhid>` handler (`edit_patient`, src/app.py
lines 162-213) -/

/-- The POST form of `/edit_patient/<vhid>`. -/
structure EditForm where
  date : Option String := none
  name : Option String := none
  age : Option String := none
  gender : Option String := none
  address : Option String := none
  ref_by : Option String := none
  mobile : Option String := none
  past_history : Option String := none
  drug_history : Option String := none
  surgical_history : Option String := none
deriving Repr, DecidableEq

/-- `age and (not age.isdigit() or int(age) < 0 or int(age) > 150)`: a
present age fails when it is not all digits or its value exceeds 150
(digit strings are never negative). -/
def ageInvalid : Option String → Bool
  | none => false
  | some a => !pyIsdigit a || (pyToNat a > 150)

/-- The validation block of `edit_patient` (src/app.py lines 179-189),
applied to the already-normalized field values, accumulating every
violation in order. -/
def editErrors (name date gender mobile : String) (age : Option String) :
    List String :=
  (if name = "" then ["Name is required"] else []) ++
  (if date = "" then ["Date is required"] else []) ++
  (if gender = "" then ["Gender is required"] else []) ++
  (if mobile ≠ "" ∧ ¬pyIsdigit mobile then
    ["Mobile number must contain only digits"] else []) ++
  (if ageInvalid age then ["Age must be a number between 0 and 150"] else [])

inductive EditOutcome where
  | rejected (errors : List String)
  | updated
deriving Repr, DecidableEq

/-- The messages `edit_patient` flashes for each outcome. -/
def editPatientFlash : EditOutcome → List String
  | .rejected errs => errs
  | .updated => ["Patient details updated successfully!"]

/-- The violations `edit_patient` computes for a form, after its
normalization (every field stripped except `age`, which goes through
`or None` unstripped). -/
def editErrorsOf (f : EditForm) : List String :=
  editErrors (pyStrip (f.name.getD "")) (pyStrip (f.date.getD ""))
    (pyStrip (f.gender.getD "")) (pyStrip (f.mobile.getD ""))
    (pyOrNone f.age)

/-- The `mobile` violation condition of `edit_patient` (src/app.py
line 186), on the stripped form value. -/
def mobileViolation (f : EditForm) : Prop :=
  pyStrip (f.mobile.getD "") ≠ "" ∧ ¬pyIsdigit (pyStrip (f.mobile.getD ""))

/-- The `age` violation condition of `edit_patient` (src/app.py line 188). -/
def ageViolation (f : EditForm) : Prop :=
  ageInvalid (pyOrNone f.age) = true

instance (f : EditForm) : Decidable (mobileViolation f) := by
  unfold mobileViolation; infer_instance

instance (f : EditForm) : Decidable (ageViolation f) := by
  unfold ageViolation; infer_instance

/-- The effect of `edit_patient`'s `UPDATE` statement on one row: the row
whose key matches gets every column replaced (never `vhid`), all others are
untouched. -/
def updPatientRow (f : EditForm) (vhid : String) (p : Patient) : Patient :=
  if p.vhid == vhid then
    { p with
      date := pyStrip (f.date.getD ""), name := pyStrip (f.name.getD ""),
      age := pyOrNone f.age, gender := some (pyStrip (f.gender.getD "")),
      address := pyStrip (f.address.getD ""),
      ref_by := pyStrip (f.ref_by.getD ""),
      mobile := pyStrip (f.mobile.getD ""),
      past_history := pyStrip (f.past_history.getD ""),
      drug_history := pyStrip (f.drug_history.getD ""),
      surgical_history := pyStrip (f.surgical_history.getD "") }
  else p

/-- POST `/edit_patient/<vhid>`: strip every field except `age` (which goes
through `or None`), validate, and on success run the `UPDATE ... WHERE
vhid = ?` — which silently matches zero rows when no such patient exists,
yet the success message is flashed unconditionally. -/
def editPatient (s : Store) (vhid : String) (f : EditForm) :
    Store × EditOutcome :=
  let errs := editErrorsOf f
  if errs ≠ [] then (s, .rejected errs)
  else
    ({ s with patients := s.patients.map (updPatientRow f vhid) }, .updated)

/-! ### The `/add_visit/<vhid>` and `/edit_visit/<visit_id>` handlers
(src/app.py lines 215-331) -/

/-- The POST form shared by `add_visit` and `edit_visit`. `edit_visit`'s
exception fallback additionally reads a `vhid` field. -/
structure VisitForm where
  date : Option String := none
  vitals : Option String := none
  complaints : Option String := none
  oe : Option String := none
  imp : Option String := none
  invgs : Option String := none
  treatment : Option String := none
  ref_by : Option String := none
  examination : Option String := none
  prov_diagnosis : Option String := none
  impression : Option String := none
  next_review : Option String := none
  past_history : Option String := none
  drug_history : Option String := none
  surgical_history : Option String := none
  vhid : Option String := none
deriving Repr, DecidableEq

/-- The validation block shared by `add_visit` and `edit_visit`
(src/app.py lines 236-240 and 291-295). -/
def visitErrors (date complaints : String) : List String :=
  (if date = "" then ["Date is required"] else []) ++
  (if complaints = "" then ["Complaints are required"] else [])

inductive AddVisitOutcome where
  | rejected (errors : List String)
  | added
deriving Repr, DecidableEq

/-- The visit row `add_visit` inserts, with id drawn from the
AUTOINCREMENT counter. -/
def visitRecord (newId : Nat) (vhid : String) (f : VisitForm) : Visit :=
  { id := newId
    vhid := vhid
    date := pyStrip (f.date.getD "")
    vitals := pyStrip (f.vitals.getD "")
    complaints := pyStrip (f.complaints.getD "")
    oe := pyStrip (f.oe.getD "")
    imp := pyStrip (f.imp.getD "")
    invgs := pyStrip (f.invgs.getD "")
    treatment := pyStrip (f.treatment.getD "")
    ref_by := pyStrip (f.ref_by.getD "")
    examination := pyStrip (f.examination.getD "")
    prov_diagnosis := pyStrip (f.prov_diagnosis.getD "")
    impression := pyStrip (f.impression.getD "")
    next_review := pyStrip (f.next_review.getD "")
    past_history := pyStrip (f.past_history.getD "")
    drug_history := pyStrip (f.drug_history.getD "")
    surgical_history := pyStrip (f.surgical_history.getD "") }

/-- POST `/add_visit/<vhid>`: strip every field, require `date` and
`complaints`, then `INSERT INTO visits` — with no check that `vhid` names an
existing patient (SQLite never enforces the declared FOREIGN KEY because
`PRAGMA foreign_keys` is never enabled). -/
def addVisit (s : Store) (vhid : String) (f : VisitForm) :
    Store × AddVisitOutcome :=
  let date := pyStrip (f.date.getD "")
  let complaints := pyStrip (f.complaints.getD "")
  let errs := visitErrors date complaints
  if errs ≠ [] then (s, .rejected errs)
  else
    ({ s with
        visits := s.visits ++ [visitRecord s.nextVisitId vhid f]
        nextVisitId := s.nextVisitId + 1 },
     .added)

/-- The text of the `TypeError` that `edit_visit` raises on
`cursor.fetchone()[0]` when no row matched, caught on line 325 and flashed
verbatim inside `"Error updating visit: ..."`. -/
def noneSubscriptError : String :=
  "Error updating visit: 'NoneType' object is not subscriptable"

/-- The effect of `edit_visit`'s `UPDATE` statement on one row: the row
whose id matches gets every column except `id` and `vhid` replaced, all
others are untouched. -/
def updVisitRow (f : VisitForm) (visitId : Nat) (v : Visit) : Visit :=
  if v.id == visitId then
    { v with
      date := pyStrip (f.date.getD ""),
      vitals := pyStrip (f.vitals.getD ""),
      complaints := pyStrip (f.complaints.getD ""),
      oe := pyStrip (f.oe.getD ""),
      imp := pyStrip (f.imp.getD ""),
      invgs := pyStrip (f.invgs.getD ""),
      treatment := pyStrip (f.treatment.getD ""),
      ref_by := pyStrip (f.ref_by.getD ""),
      examination := pyStrip (f.examination.getD ""),
      prov_diagnosis := pyStrip (f.prov_diagnosis.getD ""),
      impression := pyStrip (f.impression.getD ""),
      next_review := pyStrip (f.next_review.getD ""),
      past_history := pyStrip (f.past_history.getD ""),
      drug_history := pyStrip (f.drug_history.getD ""),
      surgical_history := pyStrip (f.surgical_history.getD "") }
  else v

/-- POST `/edit_visit/<visit_id>`, returning the updated store, the flashed
messages in order, and the `vhid` of the redirect target. Control flow of
src/app.py lines 269-331:
* validation failure → flash the errors, then look up the visit's `vhid`
  for the redirect; a missing visit makes `fetchone()[0]` raise, landing in
  the `except` block, which flashes the generic error and — because its own
  double `fetchone()` also finds nothing — falls back to the form's `vhid`;
* validation success → `UPDATE ... WHERE id = ?` (matching zero rows when
  the visit is missing), then the same `SELECT vhid` lookup: an existing
  visit yields the success flash and a redirect to its owner, a missing one
  takes the same exception path as above. -/
def editVisit (s : Store) (visitId : Nat) (f : VisitForm) :
    Store × List String × String :=
  let date := pyStrip (f.date.getD "")
  let complaints := pyStrip (f.complaints.getD "")
  let errs := visitErrors date complaints
  if errs ≠ [] then
    match getVisitById s visitId with
    | some v => (s, errs, v.vhid)
    | none => (s, errs ++ [noneSubscriptError], f.vhid.getD "")
  else
    let s' : Store := { s with visits := s.visits.map (updVisitRow f visitId) }
    match getVisitById s' visitId with
    | some v => (s', ["Visit details updated successfully!"], v.vhid)
    | none => (s', [noneSubscriptError], f.vhid.getD "")

/-! ### The document importer (`parse_word_doc`, src/app.py lines 78-93) -/

/-- Python-dict insertion into an insertion-ordered association list:
an existing key keeps its position and gets the new value, a new key is
appended. -/
def dictInsert (d : List (String × String)) (k v : String) :
    List (String × String) :=
  if d.any (fun kv => kv.1 == k) then
    d.map (fun kv => if kv.1 == k then (k, v) else kv)
  else d ++ [(k, v)]

/-- `d.get(k)` on the association list. -/
def dictGet (d : List (String × String)) (k : String) : Option String :=
  (d.find? (fun kv => kv.1 == k)).map (fun kv => kv.2)

/-- `d.get(k, dflt)` on the association list. -/
def dictGetD (d : List (String × String)) (k dflt : String) : String :=
  (dictGet d k).getD dflt

/-- `line.lower().startswith("patient")`: the block-marker test of
`parse_word_doc` — a prefix test, not a first-word test. -/
def isMarkerLine (l : String) : Bool :=
  "patient".data.isPrefixOf (pyLower l).data

/-- `if ":" in line: key, value = line.split(":", 1)`, with the key stripped,
lower-cased and its spaces replaced by underscores, and the value stripped.
`none` when the line has no colon. -/
def kvOfLine (l : String) : Option (String × String) :=
  (pySplitOnce ':' l).map (fun p =>
    (underscoreSpaces (pyLower (pyStrip p.1)), pyStrip p.2))

/-- The accumulator loop of `parse_word_doc`: a marker line flushes the
current (non-empty) mapping, a colon line extends it, anything else is
ignored; a non-empty leftover mapping is flushed at end of document. -/
def pwLoop : List String → List (String × String) →
    List (List (String × String))
  | [], current => if current.isEmpty then [] else [current]
  | l :: ls, current =>
    if isMarkerLine l then
      if current.isEmpty then pwLoop ls []
      else current :: pwLoop ls []
    else
      match kvOfLine l with
      | some kv => pwLoop ls (dictInsert current kv.1 kv.2)
      | none => pwLoop ls current

/-- `[p.text.strip() for p in doc.paragraphs if p.text.strip()]`. -/
def cleanLines (paragraphs : List String) : List String :=
  (paragraphs.map pyStrip).filter (fun l => l ≠ "")

/-- `parse_word_doc`, taking the document's paragraph texts. -/
def parse_word_doc (paragraphs : List String) :
    List (List (String × String)) :=
  pwLoop (cleanLines paragraphs) []

/-! ### The `/upload` bulk-add handler (`upload_file`, src/app.py
lines 349-386) -/

/-- The `vhid` of a parsed block as `upload_file` normalizes it:
`data.get("vhid", "").strip().upper()`. -/
def blockVhid (data : List (String × String)) : String :=
  pyUpper (pyStrip (dictGetD data "vhid" ""))

/-- The patient row `upload_file` inserts for a block: every absent field
defaults to the empty string (`data.get(k, "")`), and `age`/`gender` are
stored as those (possibly empty) strings, never as NULL. -/
def mkBulkPatient (vhid : String) (data : List (String × String)) : Patient :=
  { vhid := vhid
    date := dictGetD data "date" ""
    name := dictGetD data "name" ""
    age := some (dictGetD data "age" "")
    gender := some (dictGetD data "gender" "")
    address := dictGetD data "address" ""
    ref_by := dictGetD data "ref_by" ""
    mobile := dictGetD data "mobile" ""
    past_history := dictGetD data "past_history" ""
    drug_history := dictGetD data "drug_history" ""
    surgical_history := dictGetD data "surgical_history" "" }

/-- One iteration of the bulk-add loop: skip a blank `vhid`, skip an
existing `vhid` (the `SELECT` sees rows inserted earlier in the same
loop), otherwise insert. -/
def bulkStep (ps : List Patient) (data : List (String × String)) :
    List Patient :=
  let vhid := blockVhid data
  if vhid = "" then ps
  else if ps.any (fun p => p.vhid == vhid) then ps
  else ps ++ [mkBulkPatient vhid data]

/-- The bulk-add handler's consumption of the parsed block sequence. -/
def uploadPatients (s : Store) (blocks : List (List (String × String))) :
    Store :=
  { s with patients := blocks.foldl bulkStep s.patients }

/-! ### Spec-side definitions, stated from the claims' wording, for
comparison against the code's behaviour -/

/-- Stated from the claim wording about the create/retrieve round trip:
the stored record matches the submitted fields field-for-field after a
normalization that trims leading/trailing whitespace from every free-text
field and additionally upper-cases `vhid`. -/
def normalizedMatch (f : AddForm) (p : Patient) : Prop :=
  p.vhid = pyUpper (pyStrip (f.vhid.getD "")) ∧
  p.date = pyStrip (f.date.getD "") ∧
  p.name = pyStrip (f.name.getD "") ∧
  p.gender = f.gender.map pyStrip ∧
  p.address = pyStrip (f.address.getD "") ∧
  p.ref_by = pyStrip (f.referred.getD "") ∧
  p.mobile = pyStrip (f.mobile.getD "") ∧
  p.past_history = pyStrip (f.past_history.getD "") ∧
  p.drug_history = pyStrip (f.drug_history.getD "") ∧
  p.surgical_history = pyStrip (f.surgical_history.getD "")

instance (f : AddForm) (p : Patient) : Decidable (normalizedMatch f p) := by
  unfold normalizedMatch; infer_instance

/-- The first whitespace-delimited word of a line. -/
def firstWord (s : String) : String :=
  ⟨(s.data.dropWhile Char.isWhitespace).takeWhile
      (fun c => !Char.isWhitespace c)⟩

/-- Stated from the claim wording about the importer: a block marker is a
line whose FIRST WORD is case-insensitively `patient`. -/
def firstWordIsPatient (l : String) : Bool :=
  pyLower (firstWord l) == "patient"

/-- Stated from the claim wording about the importer: one mapping per
block, a block extending from its marker line to the next marker or end of
document, and lines outside every block contributing nothing (`none` as
accumulator = not inside any block). -/
def claimLoop : List String → Option (List (String × String)) →
    List (List (String × String))
  | [], cur =>
    match cur with
    | none => []
    | some m => [m]
  | l :: ls, cur =>
    if firstWordIsPatient l then
      match cur with
      | none => claimLoop ls (some [])
      | some m => m :: claimLoop ls (some [])
    else
      match cur with
      | none => claimLoop ls none
      | some m =>
        match kvOfLine l with
        | some kv => claimLoop ls (some (dictInsert m kv.1 kv.2))
        | none => claimLoop ls (some m)

/-- The importer as the claim describes it. -/
def specClaimParse (paragraphs : List String) :
    List (List (String × String)) :=
  claimLoop (cleanLines paragraphs) none

/-- Split the cleaned lines into the segment before the first marker line
and one segment per marker line (the marker lines themselves dropped),
using the code's marker test. -/
def segmentsOf : List String → List String × List (List String)
  | [] => ([], [])
  | l :: ls =>
    if isMarkerLine l then ([], (segmentsOf ls).1 :: (segmentsOf ls).2)
    else (l :: (segmentsOf ls).1, (segmentsOf ls).2)

/-- Fold the `key: value` lines of a segment into a mapping, starting from
`m0`; lines without a colon contribute nothing. -/
def blockMapFrom (m0 : List (String × String)) (lines : List String) :
    List (String × String) :=
  lines.foldl (fun m l =>
    match kvOfLine l with
    | some kv => dictInsert m kv.1 kv.2
    | none => m) m0

/-- The mapping of one segment. -/
def blockMap (lines : List String) : List (String × String) :=
  blockMapFrom [] lines

/-- The importer as the amended claim describes it: markers are lines that
lower-cased start with the prefix `patient`; the `key: value` lines before
the first marker (or of a document with no marker at all) form an initial
mapping that is part of the output; each marker contributes the mapping of
the lines up to the next marker; empty mappings are dropped. -/
def specAmendedParse (paragraphs : List String) :
    List (List (String × String)) :=
  let segs := segmentsOf (cleanLines paragraphs)
  (blockMap segs.1 :: segs.2.map blockMap).filter (fun m => !m.isEmpty)

/-! ### Concrete fixtures for the witness and counterexample theorems -/

/-- A visit of patient `P1` with the given id and date and fixed clinical
fields, as the visit-ordering claim describes. -/
def exVisit (i : Nat) (d : String) : Visit :=
  { id := i, vhid := "P1", date := d, vitals := "", complaints := "Fever",
    oe := "", imp := "", invgs := "", treatment := "", ref_by := "",
    examination := "", prov_diagnosis := "", impression := "",
    next_review := "", past_history := "", drug_history := "",
    surgical_history := "" }

/-- The store of the visit-ordering claim: visits dated 2024-01-01 (id 1),
2024-03-01 (id 2), 2024-01-01 (id 3). -/
def c3Store : Store :=
  { patients := [], nextVisitId := 4,
    visits := [exVisit 1 "2024-01-01", exVisit 2 "2024-03-01",
               exVisit 3 "2024-01-01"] }

/-- A valid creation form whose `gender` carries surrounding whitespace. -/
def c2Form : AddForm :=
  { vhid := some "a1", date := some "2024-05-05", name := some "Bob",
    gender := some " M " }

/-- A patient-edit form that passes every validation check. -/
def c7Form : EditForm :=
  { date := some "2024-01-01", name := some "Bob", gender := some "M" }

/-- A visit form that passes the date/complaints validation and carries a
`vhid` field for `edit_visit`'s exception fallback. -/
def c8Form : VisitForm :=
  { date := some "2024-02-02", complaints := some "Pain",
    vhid := some "Z9" }

/-- A valid visit form for the orphan-visit theorem. -/
def c6Form : VisitForm :=
  { date := some "2024-01-01", complaints := some "Fever" }

/-- The document of the importer counterexample: a leading `key: value`
line outside every block and a line whose first word is `patients`, not
`patient`. -/
def c9Doc : List String := ["stray: v", "patients note", "name: A"]

/-- Two creation forms whose `vhid`s agree case-insensitively. -/
def c1FormA : AddForm := { vhid := some "a1", name := some "Bob" }

/-- See `c1FormA`. -/
def c1FormB : AddForm := { vhid := some " A1", name := some "Cid" }

/-- An edit form carrying both an invalid `mobile` and an invalid `age`. -/
def c4Form : EditForm :=
  { date := some "2024-01-01", name := some "Bob", gender := some "M",
    mobile := some "12a3", age := some "200" }

/-- A store holding one bulk-imported patient with `vhid` `A1`. -/
def c5Store : Store :=
  { patients := [mkBulkPatient "A1" [("vhid", "a1"), ("name", "Old")]],
    visits := [], nextVisitId := 1 }

/-- A parsed block whose `vhid` normalizes to the existing `A1`. -/
def c5BlockDup : List (String × String) := [("vhid", " a1 "), ("name", "New")]

/-- A parsed block with the fresh `vhid` `B2`. -/
def c5BlockNew : List (String × String) := [("vhid", "b2"), ("name", "Y")]

/-- A store holding one visit (id 1, owner `P1`) and no patients. -/
def c8Store : Store :=
  { patients := [], visits := [exVisit 1 "2024-01-01"], nextVisitId := 2 }

/-! ## Helper lemmas -/

/-- `add_patient` on a valid form whose normalized `vhid` is fresh appends
exactly its normalized record. -/
theorem addPatient_of_fresh (s : Store) (f : AddForm)
    (hv : f.normVhid ≠ "") (hn : pyStrip (f.name.getD "") ≠ "")
    (hfresh : ∀ p ∈ s.patients, p.vhid ≠ f.normVhid) :
    addPatient s f =
      ({ s with patients := s.patients ++ [addRecord f] },
       .added f.normVhid) := by
  have hany : s.patients.any (fun p => p.vhid == f.normVhid) = false := by
    rw [List.any_eq_false]
    intro p hp
    simpa using hfresh p hp
  simp only [addPatient]
  rw [if_neg (by push_neg; exact ⟨hv, hn⟩), hany]
  simp

/-- `add_patient` on a valid form whose normalized `vhid` already names a
stored row fails with the duplicate outcome, leaving the store unchanged. -/
theorem addPatient_of_dup (s : Store) (f : AddForm)
    (hv : f.normVhid ≠ "") (hn : pyStrip (f.name.getD "") ≠ "")
    (hdup : ∃ p ∈ s.patients, p.vhid = f.normVhid) :
    addPatient s f = (s, .duplicate) := by
  have hany : s.patients.any (fun p => p.vhid == f.normVhid) = true := by
    rw [List.any_eq_true]
    obtain ⟨p, hp, he⟩ := hdup
    exact ⟨p, hp, by simpa using he⟩
  simp only [addPatient]
  rw [if_neg (by push_neg; exact ⟨hv, hn⟩), hany]
  simp

/-- A failing name check always contributes its message. -/
theorem name_msg_mem_editErrors (n d g m : String) (a : Option String)
    (h : n = "") : "Name is required" ∈ editErrors n d g m a := by
  unfold editErrors
  rw [if_pos h]
  simp

/-- A failing date check always contributes its message. -/
theorem date_msg_mem_editErrors (n d g m : String) (a : Option String)
    (h : d = "") : "Date is required" ∈ editErrors n d g m a := by
  unfold editErrors
  rw [if_pos h]
  simp

/-- A failing gender check always contributes its message. -/
theorem gender_msg_mem_editErrors (n d g m : String) (a : Option String)
    (h : g = "") : "Gender is required" ∈ editErrors n d g m a := by
  unfold editErrors
  rw [if_pos h]
  simp

/-- A failing mobile check always contributes its message. -/
theorem mobile_msg_mem_editErrors (n d g m : String) (a : Option String)
    (h : m ≠ "" ∧ ¬pyIsdigit m) :
    "Mobile number must contain only digits" ∈ editErrors n d g m a := by
  unfold editErrors
  rw [if_pos h]
  simp

/-- A failing age check always contributes its message. -/
theorem age_msg_mem_editErrors (n d g m : String) (a : Option String)
    (h : ageInvalid a = true) :
    "Age must be a number between 0 and 150" ∈ editErrors n d g m a := by
  unfold editErrors
  rw [if_pos h]
  simp

/-- When `edit_patient`'s validation finds at least one violation, the
handler rejects with the full list and leaves the store unchanged. -/
theorem editPatient_of_rejected (s : Store) (vhid : String) (f : EditForm)
    (h : editErrorsOf f ≠ []) :
    editPatient s vhid f = (s, .rejected (editErrorsOf f)) := by
  simp only [editPatient]
  rw [if_pos h]

/-- When `edit_patient`'s validation passes, the handler maps the row
update over the table and reports success. -/
theorem editPatient_of_valid (s : Store) (vhid : String) (f : EditForm)
    (h : editErrorsOf f = []) :
    editPatient s vhid f =
      ({ s with patients := s.patients.map (updPatientRow f vhid) },
       .updated) := by
  simp only [editPatient]
  rw [if_neg (by simp [h])]

/-- `edit_patient`'s validation passes exactly when all five checks do. -/
theorem editErrorsOf_eq_nil (f : EditForm)
    (hn : pyStrip (f.name.getD "") ≠ "")
    (hd : pyStrip (f.date.getD "") ≠ "")
    (hg : pyStrip (f.gender.getD "") ≠ "")
    (hm : ¬ mobileViolation f)
    (ha : ¬ ageViolation f) :
    editErrorsOf f = [] := by
  unfold editErrorsOf editErrors
  rw [if_neg hn, if_neg hd, if_neg hg,
    if_neg (show ¬(pyStrip (f.mobile.getD "") ≠ "" ∧
      ¬pyIsdigit (pyStrip (f.mobile.getD ""))) from hm),
    if_neg (show ¬ageInvalid (pyOrNone f.age) = true from ha)]
  rfl

/-! ## Claim theorems -/

/-- C1: two creation requests with the same `vhid` up to trimming and
upper-casing and non-empty names: the first succeeds and stores its
record, the second fails with the distinct duplicate-key message
`"VHID already exists!"` (not a generic storage error) and leaves the
stored record — indeed the whole store — unchanged. -/
theorem addPatient_first_succeeds_second_duplicate
    (s : Store) (f1 f2 : AddForm)
    (hsame : f1.normVhid = f2.normVhid)
    (hv : f1.normVhid ≠ "")
    (hn1 : pyStrip (f1.name.getD "") ≠ "")
    (hn2 : pyStrip (f2.name.getD "") ≠ "")
    (hfresh : ∀ p ∈ s.patients, p.vhid ≠ f1.normVhid) :
    addPatient s f1 =
      ({ s with patients := s.patients ++ [addRecord f1] },
       .added f1.normVhid) ∧
    (addRecord f1).vhid = f1.normVhid ∧
    addPatient { s with patients := s.patients ++ [addRecord f1] } f2 =
      ({ s with patients := s.patients ++ [addRecord f1] }, .duplicate) ∧
    addFlash .duplicate = "VHID already exists!" := by
  refine ⟨addPatient_of_fresh s f1 hv hn1 hfresh, rfl, ?_, rfl⟩
  refine addPatient_of_dup _ f2 (hsame ▸ hv) hn2 ⟨addRecord f1, ?_, ?_⟩
  · simp
  · rw [← hsame]; rfl

/-- Witness for C1 at concrete forms `a1` / ` A1` over the empty store. -/
theorem addPatient_first_succeeds_second_duplicate_witness :
    addPatient (addPatient Store.empty c1FormA).1 c1FormB =
      ((addPatient Store.empty c1FormA).1, AddOutcome.duplicate) := by
  have h := addPatient_first_succeeds_second_duplicate Store.empty
    c1FormA c1FormB (by decide) (by decide) (by decide) (by decide)
    (by intro p hp; simp [Store.empty] at hp)
  rw [h.1]
  exact h.2.2.1

/-- C2 counterexample: the creation form `c2Form` is valid (its `vhid` and
`name` normalize to non-empty strings) and its stored, retrieved record
does NOT match the form field-for-field under the claimed normalization,
because `add_patient` stores `gender` without trimming it. -/
theorem addPatient_gender_not_trimmed_cex :
    (addPatient Store.empty c2Form).2 = AddOutcome.added "A1" ∧
    getPatient (addPatient Store.empty c2Form).1 "A1" =
      some (addRecord c2Form) ∧
    (addRecord c2Form).gender = some " M " ∧
    ¬ normalizedMatch c2Form (addRecord c2Form) := by decide

/-- C2 amended: creating a patient from a valid, fresh form and then
retrieving by its normalized `vhid` returns exactly the stored record
`addRecord f`, in which every free-text field is trimmed and `vhid`
upper-cased, except that `gender` is stored verbatim and `age` is stored
as submitted (or NULL when empty). -/
theorem addPatient_roundTrip (s : Store) (f : AddForm)
    (hv : f.normVhid ≠ "") (hn : pyStrip (f.name.getD "") ≠ "")
    (hfresh : ∀ p ∈ s.patients, p.vhid ≠ f.normVhid) :
    (addPatient s f).2 = .added f.normVhid ∧
    getPatient (addPatient s f).1 f.normVhid = some (addRecord f) := by
  rw [addPatient_of_fresh s f hv hn hfresh]
  refine ⟨rfl, ?_⟩
  unfold getPatient
  have h1 : s.patients.find? (fun p => p.vhid == f.normVhid) = none := by
    rw [List.find?_eq_none]
    intro p hp
    simpa using hfresh p hp
  rw [List.find?_append, h1]
  simp [List.find?_cons, addRecord]

/-- Witness for C2's amended round trip at `c2Form` over the empty store. -/
theorem addPatient_roundTrip_witness :
    (addPatient Store.empty c2Form).2 = AddOutcome.added "A1" ∧
    getPatient (addPatient Store.empty c2Form).1 "A1" =
      some (addRecord c2Form) := by
  have h := addPatient_roundTrip Store.empty c2Form (by decide) (by decide)
    (by intro p hp; simp [Store.empty] at hp)
  exact ⟨by rw [h.1]; rfl, h.2⟩

/-- C3: for every patient, the visit list is a permutation of that
patient's visits sorted by date descending with ties broken by id
descending, and on the concrete store with visits dated 2024-01-01 (id 1),
2024-03-01 (id 2), 2024-01-01 (id 3) the returned order is
[id 2, id 3, id 1]. -/
theorem listVisitsForPatient_spec :
    (∀ (s : Store) (vhid : String),
        (listVisitsForPatient s vhid).Perm
          (s.visits.filter (fun v => v.vhid == vhid)) ∧
        List.Sorted visitBefore (listVisitsForPatient s vhid)) ∧
    (listVisitsForPatient c3Store "P1").map Visit.id = [2, 3, 1] :=
  ⟨fun s vhid =>
    ⟨List.perm_insertionSort visitBefore _,
     List.sorted_insertionSort visitBefore _⟩,
   by decide⟩

/-- C6: `add_visit` happily inserts a visit whose `vhid` names no stored
patient — starting from the empty store, the valid form `c6Form` for
patient `X1` is accepted and creates a visit with `vhid = "X1"` while no
patient `X1` exists, violating the referential invariant the schema's
FOREIGN KEY declares (never enforced: `PRAGMA foreign_keys` stays off). -/
theorem addVisit_creates_orphan_visit :
    (addVisit Store.empty "X1" c6Form).2 = AddVisitOutcome.added ∧
    (addVisit Store.empty "X1" c6Form).1.visits.map Visit.vhid = ["X1"] ∧
    getPatient (addVisit Store.empty "X1" c6Form).1 "X1" = none := by decide

/-- C4: an edit request with an invalid `mobile` (non-empty, not all
digits) or an invalid `age` (present and not a digit string of value at
most 150) is rejected with the full violation list — each failed check,
not just the first, contributes its message — and the store (hence every
stored patient record) is left unchanged. -/
theorem editPatient_validation_gating (s : Store) (vhid : String)
    (f : EditForm) (hbad : mobileViolation f ∨ ageViolation f) :
    editPatient s vhid f = (s, .rejected (editErrorsOf f)) ∧
    (mobileViolation f →
      "Mobile number must contain only digits" ∈ editErrorsOf f) ∧
    (ageViolation f →
      "Age must be a number between 0 and 150" ∈ editErrorsOf f) ∧
    (pyStrip (f.name.getD "") = "" → "Name is required" ∈ editErrorsOf f) ∧
    (pyStrip (f.date.getD "") = "" → "Date is required" ∈ editErrorsOf f) ∧
    (pyStrip (f.gender.getD "") = "" →
      "Gender is required" ∈ editErrorsOf f) := by
  have hne : editErrorsOf f ≠ [] := by
    rcases hbad with hm | ha
    · exact List.ne_nil_of_mem (mobile_msg_mem_editErrors _ _ _ _ _ hm)
    · exact List.ne_nil_of_mem (age_msg_mem_editErrors _ _ _ _ _ ha)
  exact ⟨editPatient_of_rejected s vhid f hne,
    fun hm => mobile_msg_mem_editErrors _ _ _ _ _ hm,
    fun ha => age_msg_mem_editErrors _ _ _ _ _ ha,
    fun h => name_msg_mem_editErrors _ _ _ _ _ h,
    fun h => date_msg_mem_editErrors _ _ _ _ _ h,
    fun h => gender_msg_mem_editErrors _ _ _ _ _ h⟩

/-- Witness for C4 at a form carrying `mobile = "12a3"` and `age = "200"`
over the empty store. -/
theorem editPatient_validation_gating_witness :
    editPatient Store.empty "A1" c4Form =
      (Store.empty, EditOutcome.rejected (editErrorsOf c4Form)) ∧
    "Mobile number must contain only digits" ∈ editErrorsOf c4Form ∧
    "Age must be a number between 0 and 150" ∈ editErrorsOf c4Form := by
  have h := editPatient_validation_gating Store.empty "A1" c4Form
    (Or.inl (by decide))
  exact ⟨h.1, h.2.1 (by decide), h.2.2.1 (by decide)⟩

/-- C7 counterexample: editing the non-existent `vhid` `Z9` with a valid
form passes validation, matches zero rows, and still flashes the success
message — no NotFound outcome is reported. -/
theorem editPatient_missing_vhid_cex :
    getPatient Store.empty "Z9" = none ∧
    editPatient Store.empty "Z9" c7Form = (Store.empty, EditOutcome.updated) ∧
    editPatientFlash EditOutcome.updated =
      ["Patient details updated successfully!"] := by decide

/-- C7 amended: for every edit request naming a `vhid` with no stored
patient and passing validation, the `UPDATE` matches zero rows, the store
is unchanged, and the handler nevertheless reports the successful-update
outcome (there is no NotFound detection). -/
theorem editPatient_missing_vhid_silent_success (s : Store) (vhid : String)
    (f : EditForm)
    (hmiss : ∀ p ∈ s.patients, p.vhid ≠ vhid)
    (hn : pyStrip (f.name.getD "") ≠ "")
    (hd : pyStrip (f.date.getD "") ≠ "")
    (hg : pyStrip (f.gender.getD "") ≠ "")
    (hm : ¬ mobileViolation f)
    (ha : ¬ ageViolation f) :
    getPatient s vhid = none ∧
    editPatient s vhid f = (s, .updated) := by
  constructor
  · rw [getPatient, List.find?_eq_none]
    intro p hp
    simpa using hmiss p hp
  · rw [editPatient_of_valid s vhid f (editErrorsOf_eq_nil f hn hd hg hm ha)]
    have hmap : s.patients.map (updPatientRow f vhid) = s.patients := by
      conv_rhs => rw [← List.map_id s.patients]
      apply List.map_congr_left
      intro p hp
      unfold updPatientRow
      rw [if_neg (by simpa using hmiss p hp)]
      rfl
    rw [hmap]

/-- Witness for C7's amended statement at `Z9` over the empty store. -/
theorem editPatient_missing_vhid_silent_success_witness :
    getPatient Store.empty "Z9" = none ∧
    editPatient Store.empty "Z9" c7Form =
      (Store.empty, EditOutcome.updated) :=
  editPatient_missing_vhid_silent_success Store.empty "Z9" c7Form
    (by intro p hp; simp [Store.empty] at hp) (by decide) (by decide)
    (by decide) (by decide) (by decide)

/-- C5: the bulk-add loop skips blocks whose normalized `vhid` is blank,
skips blocks whose `vhid` already names a stored patient without touching
that record, inserts every remaining block as a new patient whose absent
fields default to the empty string, and on the concrete two-block document
with one existing `vhid` creates exactly one new patient, leaving the
existing record untouched. -/
theorem upload_bulk_add_spec :
    (∀ (ps : List Patient) (data : List (String × String)),
        blockVhid data = "" → bulkStep ps data = ps) ∧
    (∀ (ps : List Patient) (data : List (String × String)),
        (∃ p ∈ ps, p.vhid = blockVhid data) → bulkStep ps data = ps) ∧
    (∀ (ps : List Patient) (data : List (String × String)),
        blockVhid data ≠ "" → (∀ p ∈ ps, p.vhid ≠ blockVhid data) →
        bulkStep ps data = ps ++ [mkBulkPatient (blockVhid data) data]) ∧
    (∀ (d : List (String × String)) (k dflt : String),
        dictGet d k = none → dictGetD d k dflt = dflt) ∧
    uploadPatients c5Store [c5BlockDup, c5BlockNew] =
      { c5Store with
        patients := c5Store.patients ++ [mkBulkPatient "B2" c5BlockNew] } := by
  refine ⟨?_, ?_, ?_, ?_, by decide⟩
  · intro ps data h
    simp only [bulkStep]
    rw [if_pos h]
  · intro ps data hdup
    obtain ⟨p, hp, he⟩ := hdup
    simp only [bulkStep]
    by_cases h0 : blockVhid data = ""
    · rw [if_pos h0]
    · have hany : ps.any (fun q => q.vhid == blockVhid data) = true :=
        List.any_eq_true.mpr ⟨p, hp, by simpa using he⟩
      rw [if_neg h0, hany]
      simp
  · intro ps data h0 hfresh
    have hany : ps.any (fun q => q.vhid == blockVhid data) = false := by
      rw [List.any_eq_false]
      intro p hp
      simpa using hfresh p hp
    simp only [bulkStep]
    rw [if_neg h0, hany]
    simp
  · intro d k dflt h
    simp [dictGetD, h]

/-- Witness for C5 at one-block inputs exercising each branch. -/
theorem upload_bulk_add_spec_witness :
    bulkStep [] [("name", "X")] = [] ∧
    bulkStep [mkBulkPatient "A1" [("vhid", "a1")]] [("vhid", "a1")] =
      [mkBulkPatient "A1" [("vhid", "a1")]] ∧
    bulkStep [] [("vhid", "b2")] =
      [] ++ [mkBulkPatient "B2" [("vhid", "b2")]] ∧
    dictGetD [] "name" "" = "" := by
  refine ⟨upload_bulk_add_spec.1 [] _ (by decide),
    upload_bulk_add_spec.2.1 _ _
      ⟨mkBulkPatient "A1" [("vhid", "a1")], by decide, by decide⟩,
    ?_,
    upload_bulk_add_spec.2.2.2.1 [] "name" "" (by decide)⟩
  have h := upload_bulk_add_spec.2.2.1 [] [("vhid", "b2")] (by decide)
    (by intro p hp; simp at hp)
  simpa using h

/-- C8 counterexample: editing a visit id that does not exist, with a valid
form, flashes the generic `TypeError` text (not a "not found" report) and
redirects to whatever `vhid` the form happened to carry — the redirect
target tracks the form field, i.e. it is guessed, not resolved. -/
theorem editVisit_missing_visit_cex :
    getVisitById Store.empty 1 = none ∧
    editVisit Store.empty 1 c8Form =
      (Store.empty, [noneSubscriptError], "Z9") ∧
    editVisit Store.empty 1 { c8Form with vhid := some "Q7" } =
      (Store.empty, [noneSubscriptError], "Q7") := by decide

/-- The visit-row update never changes a row's id. -/
theorem updVisitRow_id (f : VisitForm) (visitId : Nat) (v : Visit) :
    (updVisitRow f visitId v).id = v.id := by
  unfold updVisitRow
  split <;> rfl

/-- The visit-row update never changes a row's `vhid`. -/
theorem updVisitRow_vhid (f : VisitForm) (visitId : Nat) (v : Visit) :
    (updVisitRow f visitId v).vhid = v.vhid := by
  unfold updVisitRow
  split <;> rfl

/-- Looking up a visit id after `edit_visit`'s `UPDATE` finds the updated
image of whatever row the lookup found before. -/
theorem getVisitById_after_update (s : Store) (visitId : Nat)
    (f : VisitForm) :
    getVisitById { s with visits := s.visits.map (updVisitRow f visitId) }
        visitId =
      (getVisitById s visitId).map (updVisitRow f visitId) := by
  unfold getVisitById
  have hpred : ((fun v : Visit => v.id == visitId) ∘ updVisitRow f visitId) =
      (fun v : Visit => v.id == visitId) := by
    funext v
    simp [Function.comp, updVisitRow_id]
  rw [List.find?_map, hpred]

/-- C8 amended: with a valid form, editing a visit that exists resolves the
owning `vhid` from the stored visit and redirects there with the success
flash; editing a visit id that does not exist leaves the store unchanged,
flashes the generic `TypeError` text (no "not found" report), and redirects
to the form-supplied `vhid` (empty when absent) — a guessed target. -/
theorem editVisit_redirect_resolution (s : Store) (visitId : Nat)
    (f : VisitForm)
    (hd : pyStrip (f.date.getD "") ≠ "")
    (hc : pyStrip (f.complaints.getD "") ≠ "") :
    (∀ v, getVisitById s visitId = some v →
        editVisit s visitId f =
          ({ s with visits := s.visits.map (updVisitRow f visitId) },
           ["Visit details updated successfully!"], v.vhid)) ∧
    (getVisitById s visitId = none →
        editVisit s visitId f =
          (s, [noneSubscriptError], f.vhid.getD "")) := by
  have hnil : visitErrors (pyStrip (f.date.getD ""))
      (pyStrip (f.complaints.getD "")) = [] := by
    unfold visitErrors
    rw [if_neg hd, if_neg hc]
    rfl
  constructor
  · intro v hv
    simp only [editVisit, hnil]
    rw [if_neg (by simp)]
    rw [getVisitById_after_update, hv]
    simp [updVisitRow_vhid]
  · intro hv
    have hmapid : s.visits.map (updVisitRow f visitId) = s.visits := by
      conv_rhs => rw [← List.map_id s.visits]
      apply List.map_congr_left
      intro v hvv
      unfold getVisitById at hv
      have hne := List.find?_eq_none.mp hv v hvv
      unfold updVisitRow
      rw [if_neg (by simpa using hne)]
      rfl
    simp only [editVisit, hnil]
    rw [if_neg (by simp)]
    rw [getVisitById_after_update, hv, hmapid]
    simp

/-- Witness for C8's amended statement: an existing visit (id 1, owner
`P1`) and a missing one over the empty store. -/
theorem editVisit_redirect_resolution_witness :
    editVisit c8Store 1 c8Form =
      ({ c8Store with visits := c8Store.visits.map (updVisitRow c8Form 1) },
       ["Visit details updated successfully!"], "P1") ∧
    editVisit Store.empty 2 c8Form =
      (Store.empty, [noneSubscriptError], "Z9") := by
  have h1 := editVisit_redirect_resolution c8Store 1 c8Form
    (by decide) (by decide)
  have h2 := editVisit_redirect_resolution Store.empty 2 c8Form
    (by decide) (by decide)
  exact ⟨h1.1 (exVisit 1 "2024-01-01") (by decide), h2.2 (by decide)⟩

/-- Unfolding `pwLoop` at the empty document. -/
theorem pwLoop_nil (current : List (String × String)) :
    pwLoop [] current = if current.isEmpty then [] else [current] := rfl

/-- Unfolding `pwLoop` at a marker line. -/
theorem pwLoop_cons_marker {l : String} (ls : List String)
    (current : List (String × String)) (h : isMarkerLine l = true) :
    pwLoop (l :: ls) current =
      if current.isEmpty then pwLoop ls [] else current :: pwLoop ls [] := by
  simp [pwLoop, h]

/-- Unfolding `pwLoop` at a `key: value` line. -/
theorem pwLoop_cons_kv {l : String} {kv : String × String} (ls : List String)
    (current : List (String × String)) (h : isMarkerLine l = false)
    (hkv : kvOfLine l = some kv) :
    pwLoop (l :: ls) current = pwLoop ls (dictInsert current kv.1 kv.2) := by
  simp [pwLoop, h, hkv]

/-- Unfolding `pwLoop` at a line without a colon. -/
theorem pwLoop_cons_plain {l : String} (ls : List String)
    (current : List (String × String)) (h : isMarkerLine l = false)
    (hkv : kvOfLine l = none) :
    pwLoop (l :: ls) current = pwLoop ls current := by
  simp [pwLoop, h, hkv]

/-- Unfolding `segmentsOf` at a marker line. -/
theorem segmentsOf_cons_marker {l : String} (ls : List String)
    (h : isMarkerLine l = true) :
    segmentsOf (l :: ls) = ([], (segmentsOf ls).1 :: (segmentsOf ls).2) := by
  simp [segmentsOf, h]

/-- Unfolding `segmentsOf` at a non-marker line. -/
theorem segmentsOf_cons_other {l : String} (ls : List String)
    (h : isMarkerLine l = false) :
    segmentsOf (l :: ls) = (l :: (segmentsOf ls).1, (segmentsOf ls).2) := by
  simp [segmentsOf, h]

/-- `blockMapFrom` over a `key: value` line. -/
theorem blockMapFrom_cons_kv {l : String} {kv : String × String}
    (m0 : List (String × String)) (ls : List String)
    (hkv : kvOfLine l = some kv) :
    blockMapFrom m0 (l :: ls) =
      blockMapFrom (dictInsert m0 kv.1 kv.2) ls := by
  simp [blockMapFrom, hkv]

/-- `blockMapFrom` over a line without a colon. -/
theorem blockMapFrom_cons_plain {l : String}
    (m0 : List (String × String)) (ls : List String)
    (hkv : kvOfLine l = none) :
    blockMapFrom m0 (l :: ls) = blockMapFrom m0 ls := by
  simp [blockMapFrom, hkv]

/-- The accumulator loop of `parse_word_doc`, described segment-wise: the
output is the accumulator extended by the leading segment, followed by one
mapping per marker, with empty mappings dropped. -/
theorem pwLoop_eq_segments (ls : List String) :
    ∀ current, pwLoop ls current =
      (blockMapFrom current (segmentsOf ls).1 ::
        (segmentsOf ls).2.map blockMap).filter (fun m => !m.isEmpty) := by
  induction ls with
  | nil =>
    intro current
    rw [pwLoop_nil]
    by_cases hc : current.isEmpty
    · rw [if_pos hc]
      simp [segmentsOf, blockMapFrom, hc]
    · rw [if_neg hc]
      simp [segmentsOf, blockMapFrom, hc]
  | cons l ls ih =>
    intro current
    cases hm : isMarkerLine l with
    | true =>
      rw [pwLoop_cons_marker ls current hm, segmentsOf_cons_marker ls hm]
      dsimp only
      rw [List.map_cons, List.filter_cons]
      rw [ih []]
      by_cases hc : current.isEmpty
      · rw [if_pos hc]
        simp [hc, blockMap, blockMapFrom]
      · rw [if_neg hc]
        simp [hc, blockMap, blockMapFrom]
    | false =>
      rw [segmentsOf_cons_other ls hm]
      dsimp only
      cases hkv : kvOfLine l with
      | some kv =>
        rw [pwLoop_cons_kv ls current hm hkv, ih (dictInsert current kv.1 kv.2),
          blockMapFrom_cons_kv current (segmentsOf ls).1 hkv]
      | none =>
        rw [pwLoop_cons_plain ls current hm hkv, ih current,
          blockMapFrom_cons_plain current (segmentsOf ls).1 hkv]

/-- C9 counterexample: on the document `c9Doc`, no line has first word
`patient`, so the claim's description yields no mapping at all, yet the
importer emits two: leading `key: value` lines outside every block form a
mapping, and the marker test is a prefix test that `patients note`
passes. -/
theorem parse_word_doc_cex :
    parse_word_doc c9Doc = [[("stray", "v")], [("name", "A")]] ∧
    specClaimParse c9Doc = [] ∧
    parse_word_doc c9Doc ≠ specClaimParse c9Doc := by decide

/-- C9 amended: the importer equals the segment-wise description in which a
block marker is any line that lower-cased starts with the prefix
`patient`, the `key: value` lines before the first marker (also when no
marker exists) form an initial mapping included in the output, each
mapping sends the normalized key (lower-cased, spaces to underscores) to
the trimmed value, and empty mappings are dropped. -/
theorem parse_word_doc_eq_specAmendedParse (paragraphs : List String) :
    parse_word_doc paragraphs = specAmendedParse paragraphs := by
  unfold parse_word_doc specAmendedParse
  rw [pwLoop_eq_segments]
  rfl

/-- C10 counterexample: a POST `/retrieve` request with no `vhid` field at
all crashes on `None.strip()` instead of rendering the empty state. -/
theorem retrieve_post_absent_vhid_cex :
    retrievePatient Store.empty true none = RetrieveOutcome.crash ∧
    RetrieveOutcome.crash ≠ RetrieveOutcome.page none [] none := by decide

/-- C10 amended: a GET request with absent or blank `vhid`, or a POST
request whose `vhid` field is present but blank after trimming, performs
no lookup and renders the empty state (no patient, no visits, no message)
whatever the store holds; only a POST with the field entirely absent
crashes instead. -/
theorem retrieve_blank_vhid_empty_state (s : Store) (isPost : Bool)
    (param : Option String)
    (h : (isPost = false ∧ pyStrip (param.getD "") = "") ∨
         (∃ raw, param = some raw ∧ pyStrip raw = "")) :
    retrievePatient s isPost param = .page none [] none := by
  rcases h with ⟨hpost, hblank⟩ | ⟨raw, hraw, hblank⟩
  · subst hpost
    have hv : pyUpper (pyStrip (param.getD "")) = "" := by
      rw [hblank]
      rfl
    simp [retrievePatient, hv]
  · subst hraw
    have hv : pyUpper (pyStrip raw) = "" := by
      rw [hblank]
      rfl
    cases isPost <;> simp [retrievePatient, hv]

/-- Witness for C10's amended statement: a GET with absent `vhid` and a
POST with a whitespace-only `vhid`. -/
theorem retrieve_blank_vhid_empty_state_witness :
    retrievePatient Store.empty false none =
      RetrieveOutcome.page none [] none ∧
    retrievePatient Store.empty true (some "  ") =
      RetrieveOutcome.page none [] none :=
  ⟨retrieve_blank_vhid_empty_state Store.empty false none
      (Or.inl ⟨rfl, by decide⟩),
   retrieve_blank_vhid_empty_state Store.empty true (some "  ")
      (Or.inr ⟨"  ", rfl, by decide⟩)⟩

end Hospital
